import Mathlib

/-!
Shallow embedding of `src/app/api/analyze/route.ts` (the channel-resolution /
transcript-aggregation / two-stage generation pipeline of the Channel Stylist
service).

Modelling conventions:
  - External effects (HTTP fetches, the transcript library, the two generative
    model calls, the builtin `JSON.parse`) are oracles passed in as explicit
    parameters; the control flow around them is translated from the source.
  - JavaScript strings are Lean `String`s (lists of characters); slicing and
    length are by characters.
  - A thrown JS `Error` is modelled as `Except.error msg` carrying the message
    the `catch` block in `POST` would read off it (a non-`Error` throw carries
    the fallback text "Unexpected server error." computed there).
  - `undefined` / `null` JSON fields are `Option.none`.
-/

namespace ChannelStylist

/-! ### JavaScript string primitives -/

/-- The character class of the JS regex `\s` (also the WhiteSpace and
LineTerminator set used by `String.prototype.trim`). -/
def jsWs (c : Char) : Bool :=
  c == ' ' || c == '\t' || c == '\n' || c == '\r' ||
  c.toNat == 0x0b || c.toNat == 0x0c || c.toNat == 0xa0 || c.toNat == 0x1680 ||
  (0x2000 ≤ c.toNat && c.toNat ≤ 0x200a) ||
  c.toNat == 0x2028 || c.toNat == 0x2029 || c.toNat == 0x202f ||
  c.toNat == 0x205f || c.toNat == 0x3000 || c.toNat == 0xfeff

/-- `text.replace(/\s+/g, " ")`: every maximal run of whitespace becomes one
space. -/
def collapseWs : List Char → List Char
  | [] => []
  | [c] => if jsWs c then [' '] else [c]
  | c :: d :: rest =>
    if jsWs c then
      if jsWs d then collapseWs (d :: rest)
      else ' ' :: collapseWs (d :: rest)
    else c :: collapseWs (d :: rest)

/-- `text.trim()` over a character list. -/
def jsTrim (cs : List Char) : List Char :=
  ((cs.dropWhile jsWs).reverse.dropWhile jsWs).reverse

/-- `text.trim()` on strings. -/
def jsTrimStr (s : String) : String := String.mk (jsTrim s.data)

/-- `.replace(/\s+/g, " ").trim()` as used on joined transcript text. -/
def normalizeWs (s : String) : String := String.mk (jsTrim (collapseWs s.data))

/-- `text.slice(0, n)`. -/
def strTake (n : Nat) (s : String) : String := String.mk (s.data.take n)

/-- Does `needle` lead `hay`? -/
def leadMatch : List Char → List Char → Bool
  | [], _ => true
  | _ :: _, [] => false
  | a :: as, b :: bs => a == b && leadMatch as bs

def includesChars (needle : List Char) : List Char → Bool
  | [] => leadMatch needle []
  | c :: rest => leadMatch needle (c :: rest) || includesChars needle rest

/-- `haystack.includes(needle)`. -/
def strIncludes (haystack needle : String) : Bool :=
  includesChars needle.data haystack.data

/-- `s.startsWith(pre)`. -/
def strStartsWith (s pre : String) : Bool := leadMatch pre.data s.data

/-- `s.split(sep)` for a one-character separator: every occurrence splits,
empty pieces are kept. -/
def splitOnChar (c : Char) : List Char → List (List Char)
  | [] => [[]]
  | x :: xs =>
    if x = c then [] :: splitOnChar c xs
    else
      match splitOnChar c xs with
      | [] => [[x]]
      | cur :: rest => (x :: cur) :: rest

/-- `text.indexOf(c)` as an optional position (JS returns `-1` for `none`). -/
def idxOf? (c : Char) : List Char → Option Nat
  | [] => none
  | x :: xs => if x = c then some 0 else (idxOf? c xs).map (· + 1)

/-- `text.lastIndexOf(c)` as an optional position. -/
def lastIdxOf? (c : Char) (cs : List Char) : Option Nat :=
  match idxOf? c cs.reverse with
  | none => none
  | some k => some (cs.length - 1 - k)

def openBrace : Char := Char.ofNat 123

def closeBrace : Char := Char.ofNat 125

/-! ### JSON values and property access -/

/-- A parsed JSON value, the result type of the `JSON.parse` oracle. -/
inductive JsValue where
  | null
  | bool (b : Bool)
  | num (n : Int)
  | str (s : String)
  | arr (elems : List JsValue)
  | obj (fields : List (String × JsValue))

def lookupField : List (String × JsValue) → String → Option JsValue
  | [], _ => none
  | (k, v) :: rest, key => if k = key then some v else lookupField rest key

/-- JS property access `value[key]` on a parsed JSON value: `undefined`
(`none`) on non-objects and missing keys. -/
def getField (v : JsValue) (key : String) : Option JsValue :=
  match v with
  | .obj fields => lookupField fields key
  | _ => none

/-- `Array.isArray(x)` for an optionally-present property. -/
def isArrayField : Option JsValue → Bool
  | some (.arr _) => true
  | _ => false

/-! ### Identifier Extractor (route.ts lines 198-235) -/

/-- `ChannelIdentifier` from route.ts (the `null` case is `Option.none` at
use sites). -/
inductive ChannelIdentifier where
  | id (value : String)
  | handle (value : String)
  | custom (value : String)

/-- `parsed.pathname.split("/").map(s => s.trim()).filter(Boolean)`. -/
def pathSegments (pathname : String) : List String :=
  (((splitOnChar '/' pathname.data).map String.mk).map jsTrimStr).filter
    (fun s => s != "")

/-- `extractChannelIdentifier` from route.ts. The URL constructor is external;
its outcome is the `parsed` argument: `none` when `new URL(url)` throws,
`some pathname` otherwise. `segments.getD 1 ""` mirrors the truthiness test
`segments[1]` (`undefined` and the empty string are both falsy). -/
def extractChannelIdentifier (parsed : Option String) : Option ChannelIdentifier :=
  match parsed with
  | none => none
  | some pathname =>
    let segments := pathSegments pathname
    if segments = [] then none
    else if segments.headD "" = "@" then some (.handle (segments.headD ""))
    else if strStartsWith (segments.headD "") "@" then some (.handle (segments.headD ""))
    else if segments.headD "" = "channel" ∧ segments.getD 1 "" ≠ "" then
      some (.id (segments.getD 1 ""))
    else if (segments.headD "" = "c" ∨ segments.headD "" = "user") ∧ segments.getD 1 "" ≠ "" then
      some (.custom (segments.getD 1 ""))
    else if strStartsWith pathname "/@" then some (.handle (pathname.drop 1))
    else none

/-- The Identifier Extractor as the claim words it: rules checked in order
against the first non-empty path segment; Handle when that segment is exactly
"@" or starts with "@"; Id/Custom when a second segment exists; Handle(path
minus leading slash) when the pathname starts with "/@"; absent otherwise. -/
def extractChannelIdentifierClaim (parsed : Option String) : Option ChannelIdentifier :=
  match parsed with
  | none => none
  | some pathname =>
    match pathSegments pathname with
    | [] => none
    | s0 :: rest =>
      if s0 = "@" ∨ strStartsWith s0 "@" then some (.handle s0)
      else if s0 = "channel" ∧ rest ≠ [] then some (.id (rest.headD ""))
      else if (s0 = "c" ∨ s0 = "user") ∧ rest ≠ [] then some (.custom (rest.headD ""))
      else if strStartsWith pathname "/@" then some (.handle (pathname.drop 1))
      else none

/-! ### parseJsonObject (route.ts lines 181-196) -/

/-- `parseJsonObject` from route.ts, parameterized by the builtin `JSON.parse`
(`jp`, returning `none` when parsing throws). -/
def parseJsonObject (jp : String → Option JsValue) (text : String) : Except String JsValue :=
  match idxOf? openBrace text.data, lastIdxOf? closeBrace text.data with
  | some start, some stop =>
    if stop ≤ start then .error "Model response missing JSON object."
    else
      match jp (String.mk ((text.data.drop start).take (stop + 1 - start))) with
      | none => .error "Model response was not valid JSON."
      | some v => .ok v
  | _, _ => .error "Model response missing JSON object."

/-! ### Channel Resolver (route.ts lines 237-383) -/

/-- The outcome of one `fetch` call: `httpError` when `res.ok` is false,
otherwise the decoded JSON body. -/
inductive FetchOutcome (α : Type) where
  | httpError
  | ok (body : α)

/-- Body of a `search?type=channel` response; each list element is that item's
`id?.channelId` chain value. -/
structure SearchChannelBody where
  items : Option (List (Option String))

/-- `searchJson.items?.[0]?.id?.channelId ?? null`. -/
def firstChannelId (sb : SearchChannelBody) : Option String :=
  (sb.items.getD []).headD none

/-- Body of the legacy `channels?forUsername=` response; each element is that
item's `id` (`none` when the element or its id is absent). -/
structure UsernameBody where
  items : Option (List (Option String))

/-- The `custom`-branch search fallback of `identifyChannelId`. -/
def customSearchFallback (customSearch : FetchOutcome SearchChannelBody) :
    Except String (Option String) :=
  match customSearch with
  | .httpError => .error "Unable to resolve custom channel URL."
  | .ok sb => .ok (firstChannelId sb)

/-- `identifyChannelId` from route.ts. The three fetch oracles stand for the
handle search call, the legacy username lookup, and the custom-branch search
fallback (each already closed over the query string and API key). -/
def identifyChannelId (identifier : Option ChannelIdentifier)
    (handleSearch : FetchOutcome SearchChannelBody)
    (usernameLookup : FetchOutcome UsernameBody)
    (customSearch : FetchOutcome SearchChannelBody) : Except String (Option String) :=
  match identifier with
  | none => .ok none
  | some (.id v) => .ok (some v)
  | some (.handle _) =>
    match handleSearch with
    | .httpError => .error "Unable to resolve channel handle."
    | .ok sb => .ok (firstChannelId sb)
  | some (.custom _) =>
    match usernameLookup with
    | .httpError => .error "Unable to resolve custom channel URL."
    | .ok ub =>
      match ub.items with
      | some its =>
        if 0 < its.length then .ok (its.headD none)
        else customSearchFallback customSearch
      | none => customSearchFallback customSearch

/-- Body of the `channels?part=snippet` metadata response; each element is
that item's `snippet?.title` chain value. -/
structure ChannelMetaBody where
  items : Option (List (Option String))

/-- One item of the `search?type=video` response after the optional-chaining
accesses `id?.videoId`, `snippet?.title`, `snippet?.publishedAt`. -/
structure VideoSearchItem where
  videoId : Option String
  title : Option String
  publishedAt : Option String

/-- Body of the `search?type=video` response (`error?.message` included). -/
structure VideoSearchBody where
  items : Option (List VideoSearchItem)
  errorMessage : Option String

structure VideoRef where
  videoId : String
  title : String
  publishedAt : String

/-- The `.map(...).filter(item => Boolean(item.videoId)) ?? []` video-list
construction: items whose `videoId` is absent or empty (falsy) are dropped. -/
def buildVideos (items : Option (List VideoSearchItem)) : List VideoRef :=
  (items.getD []).filterMap (fun it =>
    match it.videoId with
    | some v =>
      if v = "" then none
      else some { videoId := v, title := it.title.getD "Untitled video",
                  publishedAt := it.publishedAt.getD "" }
    | none => none)

structure ChannelMeta where
  channelId : String
  channelTitle : String
  videos : List VideoRef

/-- `resolveChannelDetails` from route.ts. `channelIdResult` is the outcome of
`identifyChannelId`; the two fetch oracles are the metadata call and the video
search call (the latter a function of the `maxResults` it is asked for). The
`if cid = ""` test mirrors `if (!channelId) return null`. -/
def resolveChannelDetails (channelIdResult : Except String (Option String))
    (channelFetch : FetchOutcome ChannelMetaBody)
    (videoFetch : Nat → FetchOutcome VideoSearchBody)
    (videoCount : Nat) : Except String (Option ChannelMeta) :=
  match channelIdResult with
  | .error e => .error e
  | .ok none => .ok none
  | .ok (some cid) =>
    if cid = "" then .ok none
    else
      match channelFetch with
      | .httpError => .error "Failed to fetch channel metadata."
      | .ok cb =>
        let channelTitle := ((cb.items.getD []).headD none).getD "Channel"
        match videoFetch (min videoCount 8) with
        | .httpError => .error "Failed to fetch recent videos. Check your API key quota."
        | .ok vb =>
          match vb.errorMessage with
          | some m => .error m
          | none =>
            .ok (some { channelId := cid, channelTitle := channelTitle,
                        videos := buildVideos vb.items })

/-! ### Transcript Aggregator (route.ts lines 385-447) -/

/-- One video's `YoutubeTranscript.fetchTranscript` outcome: the promise
rejected, the value was absent, or a list of segment texts came back. -/
inductive TranscriptFetchResult where
  | thrown
  | missing
  | segments (texts : List String)

structure TranscriptSample where
  videoId : String
  title : String
  transcriptForModel : String
  snippetExcerpt : String

/-- The per-video body of the `Promise.all` map in `fetchTranscripts`. -/
def fetchTranscriptChunk (fetch : String → TranscriptFetchResult)
    (video : VideoRef) : Option TranscriptSample :=
  match fetch video.videoId with
  | .thrown => none
  | .missing => none
  | .segments texts =>
    if texts.isEmpty then none
    else
      let combined := normalizeWs (String.intercalate " " texts)
      if combined = "" then none
      else some { videoId := video.videoId, title := video.title,
                  transcriptForModel := strTake 3000 combined,
                  snippetExcerpt := strTake 320 combined }

/-- `fetchTranscripts` from route.ts: per-video chunks, then
`chunks.filter(Boolean)`. -/
def fetchTranscripts (fetch : String → TranscriptFetchResult)
    (videos : List VideoRef) : List TranscriptSample :=
  (videos.map (fetchTranscriptChunk fetch)).filterMap id

/-! ### The POST handler (route.ts lines 22-179) -/

/-- The JSON body after `request.json()`, before zod validation; wrong-typed
or absent fields are `none` (`videoCount` is `none` also for a non-integer
number, which `z.number().int()` rejects). -/
structure RawBody where
  channelUrl : Option String
  topic : Option String
  youtubeApiKey : Option String
  openAiKey : Option String
  videoCount : Option Int

structure RequestData where
  channelUrl : String
  topic : String
  youtubeApiKey : String
  openAiKey : String
  videoCount : Int

/-- `requestSchema.safeParse`: channelUrl min 1, topic min 4, both keys
min 10, videoCount an integer in 1..8. -/
def requestSchemaCheck (b : RawBody) : Option RequestData :=
  match b.channelUrl, b.topic, b.youtubeApiKey, b.openAiKey, b.videoCount with
  | some cu, some t, some yk, some oa, some vc =>
    if 1 ≤ cu.length ∧ 4 ≤ t.length ∧ 10 ≤ yk.length ∧ 10 ≤ oa.length ∧
        1 ≤ vc ∧ vc ≤ 8 then
      some { channelUrl := cu, topic := t, youtubeApiKey := yk,
             openAiKey := oa, videoCount := vc }
    else none
  | _, _, _, _, _ => none

structure StyleSummaryOut where
  voiceTone : Option JsValue
  narrativeStructure : Option JsValue
  recurringDevices : Option JsValue
  pacing : Option JsValue
  audienceEngagement : Option JsValue

structure SampledTranscript where
  videoId : String
  title : String
  excerpt : String

structure AnalysisResponse where
  channelTitle : String
  styleSummary : StyleSummaryOut
  writingGuidelines : List JsValue
  generatedScript : String
  sampledTranscripts : List SampledTranscript

/-- One `NextResponse.json(body, { status })`. -/
structure HttpResponse where
  status : Nat
  errorMessage : Option String
  payload : Option AnalysisResponse

def mkError (status : Nat) (msg : String) : HttpResponse :=
  { status := status, errorMessage := some msg, payload := none }

/-- The per-request oracle environment of `POST`: the parsed body, the URL
parse of `channelUrl`, the awaited `resolveChannelDetails` outcome, the
transcript fetch oracle, the two model calls' `output_text` (a thrown call is
`error msg`; a falsy `output_text` is the empty string), and `JSON.parse`. -/
structure Env where
  jsonBody : Option RawBody
  urlPathname : Option String
  resolve : Except String (Option ChannelMeta)
  transcriptFetch : String → TranscriptFetchResult
  styleOutput : Except String String
  jsonParse : String → Option JsValue
  scriptOutput : Except String String

/-- The `try` block of `POST` from the `resolveChannelDetails` call on:
`ok` is an early or final `NextResponse`, `error` a thrown message caught by
the `catch` block. -/
def runPipeline (env : Env) : Except String HttpResponse :=
  match env.resolve with
  | .error e => .error e
  | .ok none => .ok (mkError 404 "Unable to find the provided channel.")
  | .ok (some meta) =>
    let transcripts := fetchTranscripts env.transcriptFetch meta.videos
    if transcripts.isEmpty then
      .ok (mkError 422
        "Transcripts are unavailable for the recent uploads. Try a different channel.")
    else
      match env.styleOutput with
      | .error e => .error e
      | .ok stylePayloadText =>
        if stylePayloadText = "" then .error "Failed to read analysis output."
        else
          match parseJsonObject env.jsonParse stylePayloadText with
          | .error e => .error e
          | .ok parsedStyle =>
            match getField parsedStyle "writingGuidelines" with
            | some (JsValue.arr gs) =>
              match env.scriptOutput with
              | .error e => .error e
              | .ok out =>
                let scriptText := jsTrimStr out
                if scriptText = "" then .error "Script generation failed."
                else
                  .ok { status := 200, errorMessage := none,
                        payload := some {
                          channelTitle := meta.channelTitle,
                          styleSummary := {
                            voiceTone := getField parsedStyle "voiceTone",
                            narrativeStructure := getField parsedStyle "narrativeStructure",
                            recurringDevices := getField parsedStyle "recurringDevices",
                            pacing := getField parsedStyle "pacing",
                            audienceEngagement := getField parsedStyle "audienceEngagement" },
                          writingGuidelines := gs.take 6,
                          generatedScript := scriptText,
                          sampledTranscripts := transcripts.map (fun t =>
                            { videoId := t.videoId, title := t.title,
                              excerpt := t.snippetExcerpt }) } }
            | _ => .error "Style payload missing writing guidelines."

/-- The status the `catch` block assigns to a caught message. -/
def toStatus (msg : String) : Nat :=
  if strIncludes msg "quota" then 429
  else if strIncludes msg "API key" then 401
  else 500

/-- The response the `catch` block produces for a caught message. -/
def catchResponse (msg : String) : HttpResponse :=
  mkError (toStatus msg)
    (if toStatus msg = 500 then "Failed to build script style." else msg)

/-- `POST` from route.ts. -/
def POST (env : Env) : HttpResponse :=
  match env.jsonBody with
  | none => mkError 400 "Invalid JSON payload."
  | some raw =>
    match requestSchemaCheck raw with
    | none => mkError 400 "Please fill in every field with valid values."
    | some _data =>
      match extractChannelIdentifier env.urlPathname with
      | none => mkError 400 "Unsupported YouTube channel link. Try a different URL."
      | some _ident =>
        match runPipeline env with
        | .ok resp => resp
        | .error msg => catchResponse msg

/-- The 200 response built at the end of the `try` block, named for reuse in
statements (definitionally the record `runPipeline` constructs). -/
def successResponse (env : Env) (meta : ChannelMeta) (ps : JsValue)
    (gs : List JsValue) (out : String) : HttpResponse :=
  { status := 200, errorMessage := none,
    payload := some {
      channelTitle := meta.channelTitle,
      styleSummary := { voiceTone := getField ps "voiceTone",
                        narrativeStructure := getField ps "narrativeStructure",
                        recurringDevices := getField ps "recurringDevices",
                        pacing := getField ps "pacing",
                        audienceEngagement := getField ps "audienceEngagement" },
      writingGuidelines := gs.take 6,
      generatedScript := jsTrimStr out,
      sampledTranscripts := (fetchTranscripts env.transcriptFetch meta.videos).map
        (fun t => { videoId := t.videoId, title := t.title,
                    excerpt := t.snippetExcerpt }) } }

/-- `passesPreChecks env` holds when the three early-return guards of `POST`
(JSON parse, schema validation, identifier extraction) all pass. -/
def passesPreChecks (env : Env) : Bool :=
  (env.jsonBody.bind requestSchemaCheck).isSome &&
  (extractChannelIdentifier env.urlPathname).isSome

/-! ### Concrete instances used by the witnesses -/

def rawBodyOk : RawBody :=
  { channelUrl := some "https://www.youtube.com/@creator",
    topic := some "vintage sneakers economics",
    youtubeApiKey := some "AIzaSyExampleKey",
    openAiKey := some "sk-exampleKey0",
    videoCount := some 3 }

def rawBodyBad : RawBody := { rawBodyOk with topic := some "abc" }

def videoOne : VideoRef :=
  { videoId := "vid1", title := "Video One", publishedAt := "2024-01-01" }

def metaOne : ChannelMeta :=
  { channelId := "UC1", channelTitle := "Creator", videos := [videoOne] }

def styleObjTen : JsValue :=
  .obj [("voiceTone", .str "warm"),
        ("narrativeStructure", .str "arc"),
        ("recurringDevices", .str "motifs"),
        ("pacing", .str "brisk"),
        ("audienceEngagement", .str "questions"),
        ("writingGuidelines",
          .arr [.str "g1", .str "g2", .str "g3", .str "g4", .str "g5",
                .str "g6", .str "g7", .str "g8", .str "g9", .str "g10"])]

def styleText : String := String.mk [openBrace, closeBrace]

/-- A fully successful oracle environment: every pipeline step succeeds. -/
def envBase : Env :=
  { jsonBody := some rawBodyOk,
    urlPathname := some "/@creator",
    resolve := .ok (some metaOne),
    transcriptFetch := fun _ => .segments ["hello", "world"],
    styleOutput := .ok styleText,
    jsonParse := fun _ => some styleObjTen,
    scriptOutput := .ok " Final script. " }

/-- The response `POST envBase` produces. -/
def respBase : HttpResponse :=
  { status := 200, errorMessage := none,
    payload := some {
      channelTitle := "Creator",
      styleSummary := { voiceTone := some (.str "warm"),
                        narrativeStructure := some (.str "arc"),
                        recurringDevices := some (.str "motifs"),
                        pacing := some (.str "brisk"),
                        audienceEngagement := some (.str "questions") },
      writingGuidelines := [.str "g1", .str "g2", .str "g3", .str "g4",
                            .str "g5", .str "g6"],
      generatedScript := "Final script.",
      sampledTranscripts := [{ videoId := "vid1", title := "Video One",
                               excerpt := "hello world" }] } }

def exVideos : List VideoRef :=
  [{ videoId := "v1", title := "A", publishedAt := "" },
   { videoId := "v2", title := "B", publishedAt := "" },
   { videoId := "v3", title := "C", publishedAt := "" }]

def exFetch : String → TranscriptFetchResult :=
  fun id => if id = "v2" then .segments ["some", "ok", "text"] else .thrown

def exSearchItems : List VideoSearchItem :=
  [{ videoId := none, title := some "A", publishedAt := none },
   { videoId := some "", title := some "B", publishedAt := none },
   { videoId := some "ok1", title := some "C", publishedAt := none }]

def exVideoSearchBody : VideoSearchBody :=
  { items := some exSearchItems, errorMessage := none }

def exResolvedVideo : VideoRef := { videoId := "ok1", title := "C", publishedAt := "" }

/-- The composed resolver outcome of C9's scenario: the legacy username
lookup succeeds with one id-less item. -/
def c9Resolver : Except String (Option ChannelMeta) :=
  resolveChannelDetails
    (identifyChannelId (some (.custom "acme")) .httpError
      (.ok { items := some [none] }) .httpError)
    (.ok { items := none }) (fun _ => .httpError) 3

/-! ## Helper lemmas -/

theorem strTake_length (n : Nat) (s : String) : (strTake n s).length ≤ n := by
  show (s.data.take n).length ≤ n
  simp [List.length_take]

theorem strTake_strTake (m n : Nat) (s : String) :
    strTake m (strTake n s) = strTake (min m n) s := by
  simp [strTake, List.take_take]

theorem fetchTranscripts_eq (fetch : String → TranscriptFetchResult)
    (videos : List VideoRef) :
    fetchTranscripts fetch videos = videos.filterMap (fetchTranscriptChunk fetch) := by
  simp [fetchTranscripts, List.filterMap_map]

theorem fetchTranscriptChunk_some (fetch : String → TranscriptFetchResult)
    (video : VideoRef) (t : TranscriptSample)
    (h : fetchTranscriptChunk fetch video = some t) :
    ∃ texts, fetch video.videoId = .segments texts ∧ texts ≠ [] ∧
      normalizeWs (String.intercalate " " texts) ≠ "" ∧
      t = { videoId := video.videoId, title := video.title,
            transcriptForModel := strTake 3000 (normalizeWs (String.intercalate " " texts)),
            snippetExcerpt := strTake 320 (normalizeWs (String.intercalate " " texts)) } := by
  unfold fetchTranscriptChunk at h
  split at h
  · exact absurd h (by simp)
  · exact absurd h (by simp)
  case _ texts heq =>
    by_cases hne : texts.isEmpty
    · simp [hne] at h
    · simp only [hne, Bool.false_eq_true, if_false] at h
      by_cases hc : normalizeWs (String.intercalate " " texts) = ""
      · simp [hc] at h
      · simp only [hc, if_false] at h
        refine ⟨texts, heq, ?_, hc, (Option.some.inj h).symm⟩
        intro hnil
        rw [hnil] at hne
        exact hne rfl

theorem length_filterMap_add_none {α β : Type} (S : α → Option β) :
    ∀ l : List α,
      (l.filterMap S).length + (l.filter (fun v => (S v).isNone)).length = l.length
  | [] => rfl
  | a :: l => by
    have ih := length_filterMap_add_none S l
    cases h : S a <;>
      simp [List.filterMap_cons, List.filter_cons, h] <;> omega

theorem fetchTranscripts_videoIds (fetch : String → TranscriptFetchResult) :
    ∀ videos : List VideoRef,
      (videos.filterMap (fetchTranscriptChunk fetch)).map TranscriptSample.videoId
        = (videos.filter (fun v => (fetchTranscriptChunk fetch v).isSome)).map VideoRef.videoId
  | [] => rfl
  | v :: videos => by
    have ih := fetchTranscripts_videoIds fetch videos
    cases h : fetchTranscriptChunk fetch v with
    | none => simpa [List.filterMap_cons, List.filter_cons, h] using ih
    | some t =>
      have ht : t.videoId = v.videoId := by
        obtain ⟨texts, _, _, _, rfl⟩ := fetchTranscriptChunk_some fetch v t h
        rfl
      simp [List.filterMap_cons, List.filter_cons, h, ht, ih]

/-! ## Claims -/

/-- Claim C2: out of N videos, exactly the M whose per-video transcript fetch
fails, returns no segments, or normalizes to the empty string produce no
sample: the Transcript Aggregator returns exactly N−M samples, in the same
relative order as the surviving videos; when all fail it returns the empty
list (the aggregator is a total function, so per-video failures never
propagate as thrown errors). -/
theorem fetchTranscriptsCount (fetch : String → TranscriptFetchResult)
    (videos : List VideoRef) :
    (fetchTranscripts fetch videos).length
        + (videos.filter (fun v => (fetchTranscriptChunk fetch v).isNone)).length
        = videos.length
    ∧ (fetchTranscripts fetch videos).length
        = videos.length
          - (videos.filter (fun v => (fetchTranscriptChunk fetch v).isNone)).length
    ∧ (fetchTranscripts fetch videos).map TranscriptSample.videoId
        = (videos.filter (fun v => (fetchTranscriptChunk fetch v).isSome)).map VideoRef.videoId
    ∧ ((∀ v ∈ videos, fetchTranscriptChunk fetch v = none) →
        fetchTranscripts fetch videos = []) := by
  have hlen := length_filterMap_add_none (fetchTranscriptChunk fetch) videos
  rw [fetchTranscripts_eq]
  refine ⟨hlen, by omega, fetchTranscripts_videoIds fetch videos, ?_⟩
  intro hall
  rw [List.filterMap_eq_nil_iff]
  exact hall

/-- Witness for C2 at concrete inputs: with only `v2` succeeding the output
has length 1 and order `["v2"]`; with every fetch throwing the output is
empty. -/
theorem fetchTranscriptsCountWitness :
    ((fetchTranscripts exFetch exVideos).length = 3 - 2
      ∧ (fetchTranscripts exFetch exVideos).map TranscriptSample.videoId = ["v2"])
    ∧ fetchTranscripts (fun _ => TranscriptFetchResult.thrown) exVideos = [] := by
  have h1 := fetchTranscriptsCount exFetch exVideos
  have h2 := (fetchTranscriptsCount (fun _ => TranscriptFetchResult.thrown) exVideos).2.2.2
  exact ⟨⟨by rw [h1.2.1]; rfl, by rw [h1.2.2.1]; rfl⟩, h2 (fun v _ => rfl)⟩

/-- Claim C7: every TranscriptSample holds the whitespace-normalized join of
its video's segment texts, truncated to 3000 characters for the model and to
320 characters for display; hence `transcriptForModel` never exceeds 3000
characters, `snippetExcerpt` never exceeds 320, and the excerpt is the
320-character truncation (a prefix) of `transcriptForModel`. -/
theorem transcriptSampleShape (fetch : String → TranscriptFetchResult)
    (videos : List VideoRef) (sample : TranscriptSample)
    (h : sample ∈ fetchTranscripts fetch videos) :
    (∃ v ∈ videos, ∃ texts,
        fetch v.videoId = .segments texts ∧
        sample.videoId = v.videoId ∧ sample.title = v.title ∧
        sample.transcriptForModel
          = strTake 3000 (normalizeWs (String.intercalate " " texts)) ∧
        sample.snippetExcerpt
          = strTake 320 (normalizeWs (String.intercalate " " texts)))
    ∧ sample.transcriptForModel.length ≤ 3000
    ∧ sample.snippetExcerpt.length ≤ 320
    ∧ sample.snippetExcerpt = strTake 320 sample.transcriptForModel := by
  rw [fetchTranscripts_eq] at h
  obtain ⟨v, hv, hc⟩ := List.mem_filterMap.mp h
  obtain ⟨texts, hf, _, _, rfl⟩ := fetchTranscriptChunk_some fetch v sample hc
  refine ⟨⟨v, hv, texts, hf, rfl, rfl, rfl, rfl⟩,
    strTake_length 3000 _, strTake_length 320 _, ?_⟩
  show strTake 320 _ = strTake 320 (strTake 3000 _)
  rw [strTake_strTake]
  norm_num

/-- Witness for C7: the sample produced from segment texts
`["hello", "world"]` for `videoOne`. -/
theorem transcriptSampleShapeWitness :
    ({ videoId := "vid1", title := "Video One",
       transcriptForModel := "hello world",
       snippetExcerpt := "hello world" } : TranscriptSample).transcriptForModel.length ≤ 3000
    ∧ ({ videoId := "vid1", title := "Video One",
         transcriptForModel := "hello world",
         snippetExcerpt := "hello world" } : TranscriptSample).snippetExcerpt
        = strTake 320 "hello world" := by
  have h := transcriptSampleShape (fun _ => .segments ["hello", "world"]) [videoOne]
    { videoId := "vid1", title := "Video One",
      transcriptForModel := "hello world", snippetExcerpt := "hello world" }
    (by rw [show fetchTranscripts (fun _ => .segments ["hello", "world"]) [videoOne]
          = [{ videoId := "vid1", title := "Video One",
               transcriptForModel := "hello world",
               snippetExcerpt := "hello world" }] from rfl]
        exact List.mem_singleton.mpr rfl)
  exact ⟨h.2.1, h.2.2.2.trans (by rfl)⟩

theorem mem_pathSegments_ne (p s : String) (h : s ∈ pathSegments p) : s ≠ "" := by
  have := (List.mem_filter.mp h).2
  simpa using this

/-- Claim C4: the Identifier Extractor is the claim's rule list checked in the
claim's order: Handle(first segment) when the first non-empty path segment is
"@" or starts with "@"; Id(second segment) for `channel` with a second
segment; Custom(second segment) for `c`/`user` with a second segment;
Handle(path minus leading slash) when the pathname starts with "/@"; absent
when URL parsing throws, the path has no segments, or no rule matches. -/
theorem extractChannelIdentifierMatchesClaim (parsed : Option String) :
    extractChannelIdentifier parsed = extractChannelIdentifierClaim parsed := by
  cases parsed with
  | none => rfl
  | some pathname =>
    unfold extractChannelIdentifier extractChannelIdentifierClaim
    cases hseg : pathSegments pathname with
    | nil => simp [hseg]
    | cons s0 rest =>
      simp only [hseg]
      have hcons : ¬(s0 :: rest = []) := by simp
      rw [if_neg hcons]
      simp only [List.headD_cons]
      by_cases h1 : s0 = "@"
      · simp [h1]
      · rw [if_neg h1]
        by_cases h2 : strStartsWith s0 "@"
        · simp [h1, h2]
        · have hor : ¬(s0 = "@" ∨ strStartsWith s0 "@" = true) := by
            simp [h1, h2]
          rw [if_neg h2, if_neg hor]
          cases rest with
          | nil => simp
          | cons r rs =>
            have hr : r ≠ "" := by
              refine mem_pathSegments_ne pathname r ?_
              rw [hseg]
              exact List.mem_cons_of_mem s0 (List.mem_cons_self r rs)
            simp [hr]

theorem post_of_prechecks (env : Env) (h : passesPreChecks env = true) :
    POST env = match runPipeline env with
      | .ok resp => resp
      | .error msg => catchResponse msg := by
  unfold passesPreChecks at h
  rw [Bool.and_eq_true] at h
  obtain ⟨h1, h2⟩ := h
  unfold POST
  cases hb : env.jsonBody with
  | none => rw [hb] at h1; simp at h1
  | some raw =>
    rw [hb] at h1
    replace h1 : (requestSchemaCheck raw).isSome = true := h1
    cases hsraw : requestSchemaCheck raw with
    | none => rw [hsraw] at h1; simp at h1
    | some d =>
      cases hi : extractChannelIdentifier env.urlPathname with
      | none => rw [hi] at h2; simp at h2
      | some ident => simp only [hsraw, hi]

theorem runPipeline_resolve_none (env : Env) (h : env.resolve = .ok none) :
    runPipeline env = .ok (mkError 404 "Unable to find the provided channel.") := by
  unfold runPipeline
  rw [h]

theorem runPipeline_no_transcripts (env : Env) (meta : ChannelMeta)
    (h : env.resolve = .ok (some meta))
    (ht : fetchTranscripts env.transcriptFetch meta.videos = []) :
    runPipeline env = .ok (mkError 422
      "Transcripts are unavailable for the recent uploads. Try a different channel.") := by
  unfold runPipeline
  rw [h]
  simp [ht]

/-- Claim C3: for a Custom identifier the legacy lookup-by-username call is
consulted first; a successful non-empty item list fixes the answer to that
first item's id and makes the result independent of the search oracle; a
successful empty (or missing) item list defers to the search call, whose
first channel id (or null on an empty search) is used; an HTTP failure of the
legacy call raises immediately, again independently of the search oracle. -/
theorem identifyCustomFallbackOrder (v : String) (hs : FetchOutcome SearchChannelBody)
    (ul : FetchOutcome UsernameBody) :
    (∀ ub its, ul = .ok ub → ub.items = some its → its ≠ [] →
       ∀ cs, identifyChannelId (some (.custom v)) hs ul cs = .ok (its.headD none))
    ∧ (∀ ub, ul = .ok ub → (ub.items = some [] ∨ ub.items = none) →
       (∀ sb, identifyChannelId (some (.custom v)) hs ul (.ok sb)
           = .ok (firstChannelId sb))
       ∧ (∀ sb, (sb.items = some [] ∨ sb.items = none) →
            identifyChannelId (some (.custom v)) hs ul (.ok sb) = .ok none)
       ∧ identifyChannelId (some (.custom v)) hs ul .httpError
           = .error "Unable to resolve custom channel URL.")
    ∧ (ul = .httpError →
       ∀ cs, identifyChannelId (some (.custom v)) hs ul cs
           = .error "Unable to resolve custom channel URL.") := by
  refine ⟨?_, ?_, ?_⟩
  · rintro ub its rfl hitems hne cs
    have hlen : 0 < its.length := List.length_pos.mpr hne
    simp [identifyChannelId, hitems, hlen]
  · rintro ub rfl hempty
    refine ⟨?_, ?_, ?_⟩
    · intro sb
      rcases hempty with h | h <;> simp [identifyChannelId, h, customSearchFallback]
    · intro sb hsb
      rcases hempty with h | h <;> rcases hsb with h' | h' <;>
        simp [identifyChannelId, h, customSearchFallback, firstChannelId, h']
    · rcases hempty with h | h <;> simp [identifyChannelId, h, customSearchFallback]
  · rintro rfl cs
    simp [identifyChannelId]

/-- Witness for C3 at concrete fetch outcomes: a non-empty legacy result is
used even when the search oracle would fail; an empty legacy result defers to
search (using its id, null on empty search, raising on search HTTP failure);
a failed legacy call raises. -/
theorem identifyCustomFallbackOrderWitness :
    identifyChannelId (some (.custom "acme")) .httpError
        (.ok { items := some [some "UCX"] }) .httpError = .ok (some "UCX")
    ∧ identifyChannelId (some (.custom "acme")) .httpError
        (.ok { items := some [] }) (.ok { items := some [some "UCY"] })
        = .ok (some "UCY")
    ∧ identifyChannelId (some (.custom "acme")) .httpError
        (.ok { items := some [] }) (.ok { items := none }) = .ok none
    ∧ identifyChannelId (some (.custom "acme")) .httpError
        (.ok { items := some [] }) .httpError
        = .error "Unable to resolve custom channel URL."
    ∧ identifyChannelId (some (.custom "acme")) .httpError .httpError
        (.ok { items := some [some "UCY"] })
        = .error "Unable to resolve custom channel URL." := by
  have h := identifyCustomFallbackOrder "acme" FetchOutcome.httpError
    (.ok { items := some [some "UCX"] })
  have h2 := identifyCustomFallbackOrder "acme" FetchOutcome.httpError
    (.ok { items := some [] })
  have h3 := identifyCustomFallbackOrder "acme" FetchOutcome.httpError
    FetchOutcome.httpError
  refine ⟨h.1 _ [some "UCX"] rfl rfl (by simp) _, ?_, ?_, ?_, h3.2.2 rfl _⟩
  · exact (h2.2.1 _ rfl (Or.inl rfl)).1 _
  · exact (h2.2.1 _ rfl (Or.inl rfl)).2.1 _ (Or.inr rfl)
  · exact (h2.2.1 _ rfl (Or.inl rfl)).2.2

/-- Claim C6: a successfully resolved channel's video list is the filtered
construction from the search items: its length never exceeds
`min requestedCount 8` (given that the upstream search honors the
`maxResults = min requestedCount 8` it was asked for) and every surviving
entry carries a non-empty video id. -/
theorem resolvedVideosBounded (cid : Except String (Option String))
    (cf : FetchOutcome ChannelMetaBody) (vf : Nat → FetchOutcome VideoSearchBody)
    (videoCount : Nat) (vb : VideoSearchBody) (meta : ChannelMeta)
    (hres : resolveChannelDetails cid cf vf videoCount = .ok (some meta))
    (hv : vf (min videoCount 8) = .ok vb)
    (hlen : (vb.items.getD []).length ≤ min videoCount 8) :
    meta.videos.length ≤ min videoCount 8 ∧ ∀ w ∈ meta.videos, w.videoId ≠ "" := by
  cases cid with
  | error e => exact absurd hres (by simp [resolveChannelDetails])
  | ok oc =>
    cases oc with
    | none => exact absurd hres (by simp [resolveChannelDetails])
    | some c =>
      by_cases hc : c = ""
      · simp [resolveChannelDetails, hc] at hres
      · cases cf with
        | httpError => exact absurd hres (by simp [resolveChannelDetails, hc])
        | ok cb =>
          cases herr : vb.errorMessage with
          | some m => simp [resolveChannelDetails, hc, hv, herr] at hres
          | none =>
            simp only [resolveChannelDetails, hc, hv, herr, if_false,
              Except.ok.injEq, Option.some.injEq, if_neg hc] at hres
            have hvideos : meta.videos = buildVideos vb.items := by
              rw [← hres]
            constructor
            · rw [hvideos]
              exact le_trans (List.length_filterMap_le _ _) hlen
            · intro w hw
              rw [hvideos] at hw
              obtain ⟨it, _, hit⟩ := List.mem_filterMap.mp hw
              cases hid : it.videoId with
              | none => rw [hid] at hit; exact absurd hit (by simp)
              | some s =>
                rw [hid] at hit
                by_cases hse : s = ""
                · simp [hse] at hit
                · simp only [hse, if_false, Option.some.injEq] at hit
                  rw [← hit]
                  exact hse

/-- Witness for C6: three raw items (one id-less, one with an empty id, one
good) with requested count 5 resolve to a single video with a non-empty id. -/
theorem resolvedVideosBoundedWitness :
    (resolveChannelDetails (.ok (some "UC1")) (.ok { items := none })
        (fun _ => .ok exVideoSearchBody) 5
      = .ok (some { channelId := "UC1", channelTitle := "Channel",
                    videos := [exResolvedVideo] }))
    ∧ ([exResolvedVideo].length ≤ min 5 8
        ∧ ∀ w ∈ [exResolvedVideo], w.videoId ≠ "") := by
  refine ⟨rfl, ?_⟩
  exact resolvedVideosBounded (.ok (some "UC1")) (.ok { items := none })
    (fun _ => .ok exVideoSearchBody) 5 exVideoSearchBody
    { channelId := "UC1", channelTitle := "Channel", videos := [exResolvedVideo] }
    rfl rfl (by norm_num [exVideoSearchBody, exSearchItems])

/-- Claim C9: a Custom identifier whose legacy lookup succeeds with a
non-empty item list whose first item has no id resolves to null — the search
fallback is never consulted — and the endpoint surfaces this as the 404
"channel not found" response. -/
theorem customNoIdYields404 (v : String) (hs : FetchOutcome SearchChannelBody)
    (rest : List (Option String)) (cf : FetchOutcome ChannelMetaBody)
    (vf : Nat → FetchOutcome VideoSearchBody) (n : Nat) (env : Env) :
    (∀ cs, identifyChannelId (some (.custom v)) hs
        (.ok { items := some (none :: rest) }) cs = .ok none)
    ∧ (∀ cs, resolveChannelDetails
        (identifyChannelId (some (.custom v)) hs
          (.ok { items := some (none :: rest) }) cs) cf vf n = .ok none)
    ∧ (passesPreChecks env = true →
       ∀ cs, env.resolve = resolveChannelDetails
           (identifyChannelId (some (.custom v)) hs
             (.ok { items := some (none :: rest) }) cs) cf vf n →
       POST env = mkError 404 "Unable to find the provided channel.") := by
  have hid : ∀ cs, identifyChannelId (some (.custom v)) hs
      (.ok { items := some (none :: rest) }) cs = .ok none := by
    intro cs
    simp [identifyChannelId]
  have hres : ∀ cs, resolveChannelDetails
      (identifyChannelId (some (.custom v)) hs
        (.ok { items := some (none :: rest) }) cs) cf vf n = .ok none := by
    intro cs
    rw [hid cs]
    rfl
  refine ⟨hid, hres, ?_⟩
  intro hpre cs henv
  rw [post_of_prechecks env hpre,
    runPipeline_resolve_none env (by rw [henv]; exact hres cs)]

/-- Witness for C9 at a concrete environment whose resolver outcome is the
composition of the modelled calls. -/
theorem customNoIdYields404Witness :
    POST { envBase with resolve := c9Resolver }
      = mkError 404 "Unable to find the provided channel." := by
  exact (customNoIdYields404 "acme" FetchOutcome.httpError [] (.ok { items := none })
    (fun _ => FetchOutcome.httpError) 3 { envBase with resolve := c9Resolver }).2.2 rfl
    FetchOutcome.httpError rfl

theorem post_of_pipeline_error (env : Env) (msg : String)
    (hpre : passesPreChecks env = true) (h : runPipeline env = .error msg) :
    POST env = catchResponse msg := by
  rw [post_of_prechecks env hpre, h]

theorem post_of_pipeline_ok (env : Env) (resp : HttpResponse)
    (hpre : passesPreChecks env = true) (h : runPipeline env = .ok resp) :
    POST env = resp := by
  rw [post_of_prechecks env hpre, h]

theorem toStatus_ne_200 (msg : String) : toStatus msg ≠ 200 := by
  unfold toStatus
  split
  · norm_num
  split
  · norm_num
  · norm_num

theorem catchResponse_500 (msg : String)
    (hq : strIncludes msg "quota" = false) (hk : strIncludes msg "API key" = false) :
    catchResponse msg = mkError 500 "Failed to build script style." := by
  unfold catchResponse toStatus
  simp [hq, hk]

theorem post_error_500 (env : Env) (msg : String)
    (hpre : passesPreChecks env = true) (h : runPipeline env = .error msg)
    (hq : strIncludes msg "quota" = false) (hk : strIncludes msg "API key" = false) :
    POST env = mkError 500 "Failed to build script style." := by
  rw [post_of_pipeline_error env msg hpre h, catchResponse_500 msg hq hk]

theorem ne_nil_of_isEmpty_false {α : Type} (l : List α) (h : l.isEmpty = false) :
    l ≠ [] := by
  intro hnil
  rw [hnil] at h
  simp at h

theorem runPipeline_ok_inv (env : Env) (resp : HttpResponse)
    (h : runPipeline env = .ok resp) :
    resp = mkError 404 "Unable to find the provided channel."
    ∨ resp = mkError 422
        "Transcripts are unavailable for the recent uploads. Try a different channel."
    ∨ ∃ meta s ps gs out,
        env.resolve = .ok (some meta) ∧
        fetchTranscripts env.transcriptFetch meta.videos ≠ [] ∧
        env.styleOutput = .ok s ∧ s ≠ "" ∧
        parseJsonObject env.jsonParse s = .ok ps ∧
        getField ps "writingGuidelines" = some (.arr gs) ∧
        env.scriptOutput = .ok out ∧ jsTrimStr out ≠ "" ∧
        resp = successResponse env meta ps gs out := by
  unfold runPipeline at h
  cases hres : env.resolve with
  | error e => rw [hres] at h; exact absurd h (by simp)
  | ok oc =>
    cases oc with
    | none =>
      rw [hres] at h
      exact Or.inl (Except.ok.inj h).symm
    | some meta =>
      simp only [hres] at h
      cases hemp : (fetchTranscripts env.transcriptFetch meta.videos).isEmpty with
      | true =>
        simp only [hemp, if_true] at h
        exact Or.inr (Or.inl (Except.ok.inj h).symm)
      | false =>
        simp only [hemp, Bool.false_eq_true, if_false] at h
        refine Or.inr (Or.inr ?_)
        cases hso : env.styleOutput with
        | error e => rw [hso] at h; exact absurd h (by simp)
        | ok s =>
          simp only [hso] at h
          by_cases hs0 : s = ""
          · simp [hs0] at h
          · simp only [hs0, if_false] at h
            cases hp : parseJsonObject env.jsonParse s with
            | error e => rw [hp] at h; exact absurd h (by simp)
            | ok ps =>
              simp only [hp] at h
              cases hg : getField ps "writingGuidelines" with
              | none => simp only [hg] at h; exact absurd h (by simp)
              | some jv =>
                cases jv with
                | null => simp only [hg] at h; exact absurd h (by simp)
                | bool b => simp only [hg] at h; exact absurd h (by simp)
                | num n => simp only [hg] at h; exact absurd h (by simp)
                | str s2 => simp only [hg] at h; exact absurd h (by simp)
                | obj fs => simp only [hg] at h; exact absurd h (by simp)
                | arr gs =>
                  simp only [hg] at h
                  cases hsc : env.scriptOutput with
                  | error e => rw [hsc] at h; exact absurd h (by simp)
                  | ok out =>
                    simp only [hsc] at h
                    by_cases ho : jsTrimStr out = ""
                    · simp [ho] at h
                    · simp only [ho, if_false] at h
                      exact ⟨meta, s, ps, gs, out, rfl,
                        ne_nil_of_isEmpty_false _ hemp, rfl, hs0, hp, hg, rfl, ho,
                        (Except.ok.inj h).symm⟩

theorem post_status200_pipeline (env : Env) (h : (POST env).status = 200) :
    ∃ resp, runPipeline env = .ok resp ∧ POST env = resp := by
  cases hb : env.jsonBody with
  | none =>
    have hp : POST env = mkError 400 "Invalid JSON payload." := by
      unfold POST; rw [hb]
    rw [hp] at h
    exact absurd h (by norm_num [mkError])
  | some raw =>
    cases hs : requestSchemaCheck raw with
    | none =>
      have hp : POST env = mkError 400 "Please fill in every field with valid values." := by
        unfold POST; simp only [hb, hs]
      rw [hp] at h
      exact absurd h (by norm_num [mkError])
    | some d =>
      cases hi : extractChannelIdentifier env.urlPathname with
      | none =>
        have hp : POST env
            = mkError 400 "Unsupported YouTube channel link. Try a different URL." := by
          unfold POST; simp only [hb, hs, hi]
        rw [hp] at h
        exact absurd h (by norm_num [mkError])
      | some ident =>
        have hpre : passesPreChecks env = true := by
          unfold passesPreChecks
          rw [hb]
          simp [hs, hi]
        cases hrp : runPipeline env with
        | error msg =>
          rw [post_of_pipeline_error env msg hpre hrp] at h
          exact absurd h (toStatus_ne_200 msg)
        | ok resp => exact ⟨resp, rfl, post_of_pipeline_ok env resp hpre hrp⟩

/-- Claim C1: the response-status decision procedure of the endpoint: 400 for
a JSON-parse failure, a schema-validation failure, or an unrecognized channel
URL (each with its generic body); 404 when channel resolution returns null;
422 when the transcript sample set is empty; for every other pipeline error,
429 when the message contains "quota", else 401 when it contains "API key"
(both echoing the raised message as body), else 500; 200 on success (a
response carrying a payload). -/
theorem postStatusMapping (env : Env) :
    (env.jsonBody = none → POST env = mkError 400 "Invalid JSON payload.")
    ∧ (∀ raw, env.jsonBody = some raw → requestSchemaCheck raw = none →
        POST env = mkError 400 "Please fill in every field with valid values.")
    ∧ (∀ raw d, env.jsonBody = some raw → requestSchemaCheck raw = some d →
        extractChannelIdentifier env.urlPathname = none →
        POST env = mkError 400 "Unsupported YouTube channel link. Try a different URL.")
    ∧ (passesPreChecks env = true → env.resolve = .ok none →
        POST env = mkError 404 "Unable to find the provided channel.")
    ∧ (passesPreChecks env = true → ∀ meta, env.resolve = .ok (some meta) →
        fetchTranscripts env.transcriptFetch meta.videos = [] →
        POST env = mkError 422
          "Transcripts are unavailable for the recent uploads. Try a different channel.")
    ∧ (passesPreChecks env = true → ∀ msg, runPipeline env = .error msg →
        POST env = catchResponse msg
        ∧ (strIncludes msg "quota" = true → catchResponse msg = mkError 429 msg)
        ∧ (strIncludes msg "quota" = false → strIncludes msg "API key" = true →
            catchResponse msg = mkError 401 msg)
        ∧ (strIncludes msg "quota" = false → strIncludes msg "API key" = false →
            catchResponse msg = mkError 500 "Failed to build script style."))
    ∧ (passesPreChecks env = true → ∀ resp, runPipeline env = .ok resp →
        resp.payload ≠ none → POST env = resp ∧ resp.status = 200) := by
  refine ⟨?_, ?_, ?_, ?_, ?_, ?_, ?_⟩
  · intro h
    unfold POST
    rw [h]
  · intro raw h hs
    unfold POST
    simp only [h, hs]
  · intro raw d h hs hi
    unfold POST
    simp only [h, hs, hi]
  · intro hpre hres
    rw [post_of_prechecks env hpre, runPipeline_resolve_none env hres]
  · intro hpre meta hres ht
    rw [post_of_prechecks env hpre, runPipeline_no_transcripts env meta hres ht]
  · intro hpre msg hrp
    refine ⟨post_of_pipeline_error env msg hpre hrp, ?_, ?_, ?_⟩
    · intro hq
      unfold catchResponse toStatus
      simp [hq]
    · intro hq hk
      unfold catchResponse toStatus
      simp [hq, hk]
    · intro hq hk
      exact catchResponse_500 msg hq hk
  · intro hpre resp hrp hpl
    refine ⟨post_of_pipeline_ok env resp hpre hrp, ?_⟩
    rcases runPipeline_ok_inv env resp hrp with h4 | h4 | ⟨_, _, _, _, _, _, _, _, _, _, _, _, _, h4⟩
    · rw [h4] at hpl
      exact absurd rfl hpl
    · rw [h4] at hpl
      exact absurd rfl hpl
    · rw [h4]
      rfl

/-- Witness for C1: one concrete environment per branch of the status map. -/
theorem postStatusMappingWitness :
    POST { envBase with jsonBody := none } = mkError 400 "Invalid JSON payload."
    ∧ POST { envBase with jsonBody := some rawBodyBad }
        = mkError 400 "Please fill in every field with valid values."
    ∧ POST { envBase with urlPathname := some "/watch" }
        = mkError 400 "Unsupported YouTube channel link. Try a different URL."
    ∧ POST { envBase with resolve := .ok none }
        = mkError 404 "Unable to find the provided channel."
    ∧ POST { envBase with transcriptFetch := fun _ => .thrown }
        = mkError 422
          "Transcripts are unavailable for the recent uploads. Try a different channel."
    ∧ POST { envBase with resolve := .error "You exceeded your quota." }
        = mkError 429 "You exceeded your quota."
    ∧ POST { envBase with resolve := .error "Incorrect API key provided." }
        = mkError 401 "Incorrect API key provided."
    ∧ POST { envBase with resolve := .error "socket hang up" }
        = mkError 500 "Failed to build script style."
    ∧ (POST envBase).status = 200 := by
  refine ⟨?_, ?_, ?_, ?_, ?_, ?_, ?_, ?_, ?_⟩
  · exact (postStatusMapping _).1 rfl
  · exact (postStatusMapping _).2.1 rawBodyBad rfl rfl
  · exact (postStatusMapping _).2.2.1 rawBodyOk
      { channelUrl := "https://www.youtube.com/@creator",
        topic := "vintage sneakers economics", youtubeApiKey := "AIzaSyExampleKey",
        openAiKey := "sk-exampleKey0", videoCount := 3 } rfl rfl rfl
  · exact (postStatusMapping _).2.2.2.1 rfl rfl
  · exact (postStatusMapping _).2.2.2.2.1 rfl metaOne rfl rfl
  · have h := (postStatusMapping { envBase with resolve := .error "You exceeded your quota." }
      ).2.2.2.2.2.1 rfl "You exceeded your quota." rfl
    exact h.1.trans (h.2.1 rfl)
  · have h := (postStatusMapping { envBase with resolve := .error "Incorrect API key provided." }
      ).2.2.2.2.2.1 rfl "Incorrect API key provided." rfl
    exact h.1.trans (h.2.2.1 rfl rfl)
  · have h := (postStatusMapping { envBase with resolve := .error "socket hang up" }
      ).2.2.2.2.2.1 rfl "socket hang up" rfl
    exact h.1.trans (h.2.2.2 rfl rfl)
  · have h := (postStatusMapping envBase).2.2.2.2.2.2 rfl respBase rfl
      (by simp [respBase])
    rw [h.1]
    exact h.2

/-- Claim C5: the Style Extractor's JSON recovery takes the substring from
the first opening brace to the last closing brace and hands it to
`JSON.parse`; a missing delimiter (or a last closing brace not after the
first opening brace) and a parse failure are each fatal with their own
message; after a successful parse a non-array `writingGuidelines` is fatal,
and an array-valued one is truncated to its first 6 entries. -/
theorem parseJsonRecovery (jp : String → Option JsValue) (text : String) (env : Env) :
    ((idxOf? openBrace text.data = none ∨ lastIdxOf? closeBrace text.data = none ∨
        (∃ i j, idxOf? openBrace text.data = some i ∧
          lastIdxOf? closeBrace text.data = some j ∧ j ≤ i)) →
      parseJsonObject jp text = .error "Model response missing JSON object.")
    ∧ (∀ i j, idxOf? openBrace text.data = some i →
        lastIdxOf? closeBrace text.data = some j → i < j →
        (jp (String.mk ((text.data.drop i).take (j + 1 - i))) = none →
          parseJsonObject jp text = .error "Model response was not valid JSON.")
        ∧ (∀ v, jp (String.mk ((text.data.drop i).take (j + 1 - i))) = some v →
            parseJsonObject jp text = .ok v))
    ∧ (∀ meta s ps, env.resolve = .ok (some meta) →
        (fetchTranscripts env.transcriptFetch meta.videos).isEmpty = false →
        env.styleOutput = .ok s → s ≠ "" →
        parseJsonObject env.jsonParse s = .ok ps →
        (isArrayField (getField ps "writingGuidelines") = false →
          runPipeline env = .error "Style payload missing writing guidelines.")
        ∧ (∀ gs, getField ps "writingGuidelines" = some (.arr gs) →
            ∀ resp, runPipeline env = .ok resp → ∀ pl, resp.payload = some pl →
              pl.writingGuidelines = gs.take 6 ∧ pl.writingGuidelines.length ≤ 6)) := by
  refine ⟨?_, ?_, ?_⟩
  · intro hbad
    unfold parseJsonObject
    rcases hbad with hb | hb | ⟨i, j, hi, hj, hle⟩
    · cases hj : lastIdxOf? closeBrace text.data <;> simp [hb, hj]
    · cases hi : idxOf? openBrace text.data <;> simp [hb, hi]
    · simp [hi, hj, hle]
  · intro i j hi hj hij
    have hnle : ¬(j ≤ i) := by omega
    constructor
    · intro hjp
      unfold parseJsonObject
      simp [hi, hj, hnle, hjp]
    · intro v hjp
      unfold parseJsonObject
      simp [hi, hj, hnle, hjp]
  · intro meta s ps hres hemp hso hs0 hp
    constructor
    · intro hna
      unfold runPipeline
      simp only [hres, hemp, Bool.false_eq_true, if_false, hso, hs0, hp]
      cases hg : getField ps "writingGuidelines" with
      | none => simp [hg]
      | some jv =>
        cases jv <;> simp [hg]
        rw [hg] at hna
        simp [isArrayField] at hna
    · intro gs hg resp hok pl hpl
      rcases runPipeline_ok_inv env resp hok with h4 | h4 | h4
      · rw [h4] at hpl
        exact absurd hpl (by simp [mkError])
      · rw [h4] at hpl
        exact absurd hpl (by simp [mkError])
      · obtain ⟨meta2, s2, ps2, gs2, out2, hres2, _, hso2, _, hp2, hg2, _, _, hr2⟩ := h4
        have hs2 : s2 = s := Except.ok.inj (hso2.symm.trans hso)
        rw [hs2] at hp2
        have hps2 : ps2 = ps := Except.ok.inj (hp2.symm.trans hp)
        rw [hps2] at hg2
        have hgs2 : gs2 = gs :=
          JsValue.arr.inj (Option.some.inj (hg2.symm.trans hg))
        rw [hps2, hgs2] at hr2
        rw [hr2] at hpl
        have hpl2 : pl.writingGuidelines = gs.take 6 := by
          simp only [successResponse] at hpl
          rw [← Option.some.inj hpl]
        refine ⟨hpl2, ?_⟩
        rw [hpl2]
        simp [List.length_take]

/-- Witness for C5: a brace-free response, a reversed-brace response, a
non-JSON substring, a valid substring, a non-array guidelines field, and a
ten-entry guidelines list truncated to six. -/
theorem parseJsonRecoveryWitness :
    parseJsonObject (fun _ => some (.num 1)) "no braces here"
        = .error "Model response missing JSON object."
    ∧ parseJsonObject (fun _ => some (.num 1)) (String.mk [closeBrace, 'x', openBrace])
        = .error "Model response missing JSON object."
    ∧ parseJsonObject (fun _ => none) (String.mk ['a', openBrace, 'b', closeBrace])
        = .error "Model response was not valid JSON."
    ∧ parseJsonObject (fun _ => some (.num 1)) (String.mk ['a', openBrace, 'b', closeBrace])
        = .ok (.num 1)
    ∧ runPipeline { envBase with jsonParse := fun _ => some (.obj []) }
        = .error "Style payload missing writing guidelines."
    ∧ (∃ pl, respBase.payload = some pl ∧
        pl.writingGuidelines
          = ([.str "g1", .str "g2", .str "g3", .str "g4", .str "g5", .str "g6",
              .str "g7", .str "g8", .str "g9", .str "g10"] : List JsValue).take 6
        ∧ pl.writingGuidelines.length ≤ 6) := by
  refine ⟨?_, ?_, ?_, ?_, ?_, ?_⟩
  · exact (parseJsonRecovery (fun _ => some (.num 1)) "no braces here" envBase).1
      (Or.inl rfl)
  · exact (parseJsonRecovery (fun _ => some (.num 1))
      (String.mk [closeBrace, 'x', openBrace]) envBase).1
      (Or.inr (Or.inr ⟨2, 0, rfl, rfl, by norm_num⟩))
  · exact ((parseJsonRecovery (fun _ => none)
      (String.mk ['a', openBrace, 'b', closeBrace]) envBase).2.1 1 3 rfl rfl
      (by norm_num)).1 rfl
  · exact ((parseJsonRecovery (fun _ => some (.num 1))
      (String.mk ['a', openBrace, 'b', closeBrace]) envBase).2.1 1 3 rfl rfl
      (by norm_num)).2 (.num 1) rfl
  · exact ((parseJsonRecovery (fun _ => some (.obj []))
      "unused" { envBase with jsonParse := fun _ => some (.obj []) }).2.2
      metaOne styleText (.obj []) rfl rfl rfl (by decide) rfl).1 rfl
  · refine ⟨(respBase.payload.get (by simp [respBase])), by simp [respBase], ?_⟩
    exact ((parseJsonRecovery envBase.jsonParse styleText envBase).2.2
      metaOne styleText styleObjTen rfl rfl rfl (by decide) rfl).2
      [.str "g1", .str "g2", .str "g3", .str "g4", .str "g5", .str "g6",
       .str "g7", .str "g8", .str "g9", .str "g10"] rfl respBase rfl
      (respBase.payload.get (by simp [respBase])) (by simp [respBase])

/-- Claim C8: a 200 response arises only when every upstream step succeeded,
and then it is exactly the complete success payload (channel title, the five
style descriptor fields, the six-entry-truncated guideline list, the trimmed
non-empty script, and one videoId/title/excerpt record per transcript
sample); a script that trims to empty aborts with the fatal
"Script generation failed." error instead. -/
theorem successPayloadComplete (env : Env) :
    ((POST env).status = 200 →
      ∃ meta s ps gs out,
        env.resolve = .ok (some meta) ∧
        fetchTranscripts env.transcriptFetch meta.videos ≠ [] ∧
        env.styleOutput = .ok s ∧ s ≠ "" ∧
        parseJsonObject env.jsonParse s = .ok ps ∧
        getField ps "writingGuidelines" = some (.arr gs) ∧
        env.scriptOutput = .ok out ∧ jsTrimStr out ≠ "" ∧
        POST env = successResponse env meta ps gs out)
    ∧ (∀ meta s ps gs out,
        env.resolve = .ok (some meta) →
        (fetchTranscripts env.transcriptFetch meta.videos).isEmpty = false →
        env.styleOutput = .ok s → s ≠ "" →
        parseJsonObject env.jsonParse s = .ok ps →
        getField ps "writingGuidelines" = some (JsValue.arr gs) →
        env.scriptOutput = .ok out → jsTrimStr out = "" →
        runPipeline env = .error "Script generation failed.") := by
  constructor
  · intro h200
    obtain ⟨resp, hrp, hpost⟩ := post_status200_pipeline env h200
    rcases runPipeline_ok_inv env resp hrp with h4 | h4 | h4
    · rw [hpost, h4] at h200
      exact absurd h200 (by norm_num [mkError])
    · rw [hpost, h4] at h200
      exact absurd h200 (by norm_num [mkError])
    · obtain ⟨meta, s, ps, gs, out, h1, h2, h3, h5, h6, h7, h8, h9, h10⟩ := h4
      exact ⟨meta, s, ps, gs, out, h1, h2, h3, h5, h6, h7, h8, h9,
        hpost.trans h10⟩
  · intro meta s ps gs out hres hemp hso hs0 hp hg hsc ho
    unfold runPipeline
    simp only [hres, hemp, Bool.false_eq_true, if_false, hso, hs0, hp, hg, hsc, ho,
      if_true]

/-- Witness for C8: the fully successful environment yields the complete
success payload, and an all-whitespace script output aborts fatally. -/
theorem successPayloadCompleteWitness :
    (∃ meta s ps gs out,
        envBase.resolve = .ok (some meta) ∧
        fetchTranscripts envBase.transcriptFetch meta.videos ≠ [] ∧
        envBase.styleOutput = .ok s ∧ s ≠ "" ∧
        parseJsonObject envBase.jsonParse s = .ok ps ∧
        getField ps "writingGuidelines" = some (.arr gs) ∧
        envBase.scriptOutput = .ok out ∧ jsTrimStr out ≠ "" ∧
        POST envBase = successResponse envBase meta ps gs out)
    ∧ runPipeline { envBase with scriptOutput := .ok "   " }
        = .error "Script generation failed." := by
  constructor
  · exact (successPayloadComplete envBase).1 rfl
  · exact (successPayloadComplete { envBase with scriptOutput := .ok "   " }).2
      metaOne styleText styleObjTen
      [.str "g1", .str "g2", .str "g3", .str "g4", .str "g5", .str "g6",
       .str "g7", .str "g8", .str "g9", .str "g10"] "   "
      rfl rfl rfl (by decide) rfl rfl rfl rfl

/-- Claim C10: every pipeline error whose message contains neither "quota"
nor "API key" produces the fixed 500 body "Failed to build script style.";
two runs failing with two different such messages produce identical
responses, so the raised error text is never exposed outside the 429 and 401
paths. -/
theorem errorBodyUniform500 (env1 env2 : Env) (msg1 msg2 : String) :
    (passesPreChecks env1 = true → runPipeline env1 = .error msg1 →
      strIncludes msg1 "quota" = false → strIncludes msg1 "API key" = false →
      POST env1 = mkError 500 "Failed to build script style.")
    ∧ (passesPreChecks env1 = true → passesPreChecks env2 = true →
      runPipeline env1 = .error msg1 → runPipeline env2 = .error msg2 →
      strIncludes msg1 "quota" = false → strIncludes msg1 "API key" = false →
      strIncludes msg2 "quota" = false → strIncludes msg2 "API key" = false →
      POST env1 = POST env2) := by
  constructor
  · exact fun hpre h hq hk => post_error_500 env1 msg1 hpre h hq hk
  · intro hpre1 hpre2 h1 h2 hq1 hk1 hq2 hk2
    rw [post_error_500 env1 msg1 hpre1 h1 hq1 hk1,
      post_error_500 env2 msg2 hpre2 h2 hq2 hk2]

/-- Witness for C10: two different failure messages, identical 500 responses. -/
theorem errorBodyUniform500Witness :
    POST { envBase with resolve := .error "alpha failure" }
        = mkError 500 "Failed to build script style."
    ∧ POST { envBase with resolve := .error "alpha failure" }
        = POST { envBase with resolve := .error "beta failure" } := by
  have h := errorBodyUniform500 { envBase with resolve := .error "alpha failure" }
    { envBase with resolve := .error "beta failure" } "alpha failure" "beta failure"
  exact ⟨h.1 rfl rfl rfl rfl, h.2 rfl rfl rfl rfl rfl rfl rfl rfl⟩

end ChannelStylist
